import Mathlib

/-!
# Verification of the TaxSage tax-computation engine

A shallow embedding of `src/lib/taxUtils.ts` (FY 2024-25 Indian income-tax
calculator).  JavaScript numbers are modelled as exact rationals (`ℚ`);
`Infinity` bounds are modelled as `Option ℚ` with `none` standing for the
infinite bound; `Math.round` is modelled as `⌊x + 1/2⌋` (round half up,
JavaScript's behaviour).

The mutual recursion between `calculateSurcharge` and
`calculateTaxPayableInternal` (the marginal-relief recomputation calls the
full tax pipeline at a tier-threshold income) is embedded with an explicit
fuel parameter `calculateSurchargeF`; at fuel `0` the marginal-relief loop is
skipped.  Theorem `surchargeF_stable` below proves that every fuel value
`≥ 1` yields the same function, so the embedding with fuel `2` used by
`calculateTaxPayable` agrees with the (terminating) JavaScript semantics.
-/

namespace TaxSage

/-- The two tax regimes, `"new" | "old"` in the source. -/
inductive Regime where
  | new : Regime
  | old : Regime
deriving DecidableEq, Repr

/-- A row of a progressive slab schedule (`type Slab` in the source).
`rangeMax = none` models `Infinity`. -/
structure Slab where
  rangeMin : ℚ
  rangeMax : Option ℚ
  rate : ℚ
deriving DecidableEq, Repr

/-- A surcharge tier (`surchargeRatesFY2024_25` row in the source).
`incomeLimit = none` models `Infinity`. -/
structure RateInfo where
  incomeLimit : Option ℚ
  rate : ℚ
  capForSpecialIncome : ℚ
  capForNewRegime : ℚ
deriving DecidableEq, Repr

/-- Per-regime configuration (`type TaxRegimeData`).  The optional fields are
`Option` in the source type (`rebateLimit?`, `rebateAmount?`,
`standardDeduction?`); JS truthiness of a defined numeric field additionally
requires it to be non-zero, which the embedding checks explicitly. -/
structure TaxRegimeData where
  slabs : List Slab
  basicExemption : ℚ
  rebateLimit : Option ℚ
  rebateAmount : Option ℚ
  standardDeduction : Option ℚ
deriving DecidableEq, Repr

/-- `type FiscalYearTaxData`. -/
structure FiscalYearTaxData where
  newRegime : TaxRegimeData
  oldRegime : TaxRegimeData
deriving DecidableEq, Repr

/-- The result record returned by `calculateTaxPayableInternal`. -/
structure TaxResult where
  taxableIncome : ℚ
  taxBeforeRebate : ℚ
  rebate : ℚ
  taxAfterRebate : ℚ
  surcharge : ℚ
  cess : ℚ
  totalTax : ℚ
  taxBeforeCess : ℚ
deriving DecidableEq, Repr

/-- `surchargeRatesFY2024_25` from the source. -/
def surchargeRatesFY2024_25 : List RateInfo :=
  [ ⟨some 5000000, 0, 0, 0⟩,
    ⟨some 10000000, 1/10, 1/10, 1/10⟩,
    ⟨some 20000000, 3/20, 3/20, 3/20⟩,
    ⟨some 50000000, 1/4, 3/20, 1/4⟩,
    ⟨none, 37/100, 3/20, 1/4⟩ ]

/-- `CESS_RATE = 0.04`. -/
def CESS_RATE : ℚ := 4/100

/-- `taxDataFY2024_25` from the source. -/
def taxDataFY2024_25 : FiscalYearTaxData where
  newRegime :=
    { slabs :=
        [ ⟨0, some 300000, 0⟩,
          ⟨300001, some 600000, 1/20⟩,
          ⟨600001, some 900000, 1/10⟩,
          ⟨900001, some 1200000, 3/20⟩,
          ⟨1200001, some 1500000, 1/5⟩,
          ⟨1500001, none, 3/10⟩ ]
      basicExemption := 300000
      rebateLimit := some 700000
      rebateAmount := some 25000
      standardDeduction := some 50000 }
  oldRegime :=
    { slabs :=
        [ ⟨0, some 250000, 0⟩,
          ⟨250001, some 500000, 1/20⟩,
          ⟨500001, some 1000000, 1/5⟩,
          ⟨1000001, none, 3/10⟩ ]
      basicExemption := 250000
      rebateLimit := some 500000
      rebateAmount := some 12500
      standardDeduction := some 50000 }

/-- JavaScript `Math.max` on two numbers (NaN aside). -/
def jsMax (a b : ℚ) : ℚ := if a ≤ b then b else a

/-- JavaScript `Math.min` on two numbers (NaN aside). -/
def jsMin (a b : ℚ) : ℚ := if a ≤ b then a else b

/-- JavaScript `Math.round`: round half toward `+∞`, i.e. `⌊x + 1/2⌋`. -/
def jsRound (x : ℚ) : ℚ := ((x + 1/2).floor : ℚ)

theorem jsMax_eq (a b : ℚ) : jsMax a b = max a b := by
  simp only [jsMax, max_def]

theorem jsMin_eq (a b : ℚ) : jsMin a b = min a b := by
  simp only [jsMin, min_def]

theorem jsRound_eq (x : ℚ) : jsRound x = ((⌊x + 1/2⌋ : ℤ) : ℚ) := by
  have h : (x + 1/2).floor = ⌊x + 1/2⌋ := by rw [Rat.floor_def', Rat.floor_def]
  show ((x + 1/2).floor : ℚ) = _
  rw [h]

theorem regime_new_eq_old_iff : (Regime.new = Regime.old) ↔ False :=
  ⟨fun h => Regime.noConfusion h, False.elim⟩

theorem regime_old_eq_new_iff : (Regime.old = Regime.new) ↔ False :=
  ⟨fun h => Regime.noConfusion h, False.elim⟩

/-- The loop body of `calculateSlabTax`: walks the slab list carrying the
accumulated tax and the `incomeProcessed` high-water mark, with the two
`break` conditions of the source.  A slab with `rangeMax = Infinity` always
satisfies `taxableIncome <= slabMax`, so the loop stops there. -/
def slabTaxAux (taxableIncome : ℚ) : List Slab → ℚ → ℚ → ℚ
  | [], _, tax => tax
  | slab :: rest, incomeProcessed, tax =>
    let slabMin : ℚ := if slab.rangeMin = 0 then 0 else slab.rangeMin - 1
    if taxableIncome ≤ slabMin then tax
    else
      let cappedIncome : ℚ :=
        match slab.rangeMax with
        | none => taxableIncome
        | some m => jsMin taxableIncome m
      let incomeInSlab : ℚ := cappedIncome - jsMax incomeProcessed slabMin
      let tax' : ℚ := if 0 < incomeInSlab then tax + incomeInSlab * slab.rate else tax
      match slab.rangeMax with
      | none => tax'
      | some m => if taxableIncome ≤ m then tax' else slabTaxAux taxableIncome rest m tax'

/-- `calculateSlabTax` from the source. -/
def calculateSlabTax (taxableIncome : ℚ) (slabs : List Slab) : ℚ :=
  jsMax 0 (slabTaxAux taxableIncome slabs 0 0)

/-- The rate-determination loop of `calculateSurcharge` (phase 1): pick the
first tier whose `incomeLimit` is at or above `totalIncome` (an `Infinity`
limit always matches), capping the rate with `capForNewRegime` in the New
regime.  The source's extra `if (rateInfo.incomeLimit === Infinity)`
assignment without a `break` is kept (it is dead code, since `totalIncome <=
Infinity` always takes the first branch). -/
def rateLoop (totalIncome : ℚ) (regime : Regime) : List RateInfo → ℚ → ℚ
  | [], acc => acc
  | ri :: rest, acc =>
    let capped : ℚ := if regime = Regime.new then jsMin ri.rate ri.capForNewRegime else ri.rate
    match ri.incomeLimit with
    | none => capped
    | some limit =>
      if totalIncome ≤ limit then capped
      else rateLoop totalIncome regime rest acc

/-- The applicable surcharge rate selected by phase 1 of `calculateSurcharge`
(the value of `applicableRate` after the first loop). -/
def appRate (totalIncome : ℚ) (regime : Regime) : ℚ :=
  rateLoop totalIncome regime surchargeRatesFY2024_25 0

/-- The marginal-relief loop of `calculateSurcharge` (phase 2):
for each finite, non-zero tier threshold `T` with
`totalIncome ∈ (T, 1.05·T]`, recompute the tax at the threshold (through the
`nested` function, `calculateTaxPayableInternal(T, 0, regime).taxBeforeCess`
in the source) and, if the tax increase exceeds the income increase, reduce
the surcharge by the excess and stop; otherwise keep scanning. -/
def reliefLoop (nested : ℚ → ℚ) (totalIncome taxBeforeSurcharge : ℚ) :
    List RateInfo → ℚ → ℚ
  | [], surcharge => surcharge
  | ri :: rest, surcharge =>
    match ri.incomeLimit with
    | none => reliefLoop nested totalIncome taxBeforeSurcharge rest surcharge
    | some threshold =>
      if threshold = 0 then reliefLoop nested totalIncome taxBeforeSurcharge rest surcharge
      else if threshold < totalIncome ∧ totalIncome ≤ threshold * (21/20) then
        let taxOnThreshold := nested threshold
        let taxIncrease := taxBeforeSurcharge + surcharge - taxOnThreshold
        let incomeIncrease := totalIncome - threshold
        if incomeIncrease < taxIncrease then
          jsMax 0 (surcharge - (taxIncrease - incomeIncrease))
        else reliefLoop nested totalIncome taxBeforeSurcharge rest surcharge
      else reliefLoop nested totalIncome taxBeforeSurcharge rest surcharge

/-- `regime === "new" ? taxData.newRegime : taxData.oldRegime`. -/
def regimeDataOf : Regime → TaxRegimeData
  | Regime.new => taxDataFY2024_25.newRegime
  | Regime.old => taxDataFY2024_25.oldRegime

/-- Step 1 of `calculateTaxPayableInternal`: apply the standard deduction when
the field is truthy and `grossIncome > 0`. -/
def incomeAfterStdDedOf (grossIncome : ℚ) (regime : Regime) : ℚ :=
  match (regimeDataOf regime).standardDeduction with
  | some sd => if sd ≠ 0 ∧ 0 < grossIncome then jsMax 0 (grossIncome - sd) else grossIncome
  | none => grossIncome

/-- Step 2: taxable income (Old regime additionally subtracts
`totalDeductions`), clamped to be non-negative. -/
def taxableIncomeOf (grossIncome totalDeductions : ℚ) (regime : Regime) : ℚ :=
  let base := incomeAfterStdDedOf grossIncome regime
  let t := if regime = Regime.old then jsMax 0 (base - totalDeductions) else base
  jsMax 0 t

/-- Step 3: slab tax on the taxable income. -/
def taxBeforeRebateOf (grossIncome totalDeductions : ℚ) (regime : Regime) : ℚ :=
  calculateSlabTax (taxableIncomeOf grossIncome totalDeductions regime)
    (regimeDataOf regime).slabs

/-- Step 4: rebate u/s 87A.  The source guards on the truthiness of
`rebateLimit` and `rebateAmount`. -/
def rebateOf (grossIncome totalDeductions : ℚ) (regime : Regime) : ℚ :=
  match (regimeDataOf regime).rebateLimit, (regimeDataOf regime).rebateAmount with
  | some rl, some ra =>
    if rl ≠ 0 ∧ taxableIncomeOf grossIncome totalDeductions regime ≤ rl ∧ ra ≠ 0 then
      jsMin (taxBeforeRebateOf grossIncome totalDeductions regime) ra
    else 0
  | some _, none => 0
  | none, _ => 0

/-- `taxAfterRebate = max(0, taxBeforeRebate - rebate)`. -/
def taxAfterRebateOf (grossIncome totalDeductions : ℚ) (regime : Regime) : ℚ :=
  jsMax 0 (taxBeforeRebateOf grossIncome totalDeductions regime -
    rebateOf grossIncome totalDeductions regime)

/-- Step 5's income base: gross income for the Old regime, income after
standard deduction for the New regime. -/
def surchargeBaseOf (grossIncome : ℚ) (regime : Regime) : ℚ :=
  if regime = Regime.old then grossIncome else incomeAfterStdDedOf grossIncome regime

/-- `calculateTaxPayableInternal`, parameterized by the surcharge function so
that the fuel-indexed surcharge below can close the mutual recursion. -/
def calcInternalGeneric (surchargeFn : ℚ → ℚ → Regime → ℚ)
    (grossIncome totalDeductions : ℚ) (regime : Regime) : TaxResult :=
  let taxAfterRebate := taxAfterRebateOf grossIncome totalDeductions regime
  let surcharge := surchargeFn (surchargeBaseOf grossIncome regime) taxAfterRebate regime
  let taxBeforeCess := taxAfterRebate + surcharge
  let cess := taxBeforeCess * CESS_RATE
  { taxableIncome := taxableIncomeOf grossIncome totalDeductions regime
    taxBeforeRebate := taxBeforeRebateOf grossIncome totalDeductions regime
    rebate := rebateOf grossIncome totalDeductions regime
    taxAfterRebate := taxAfterRebate
    surcharge := surcharge
    cess := cess
    totalTax := jsRound (taxBeforeCess + cess)
    taxBeforeCess := taxBeforeCess }

/-- `calculateSurcharge`, indexed by fuel for the mutual recursion with
`calculateTaxPayableInternal`: at fuel `0` the marginal-relief loop is
skipped (`surchargeF_stable` proves the choice of fuel `≥ 1` is
irrelevant, because a nested threshold computation never falls inside a
relief window). -/
def calculateSurchargeF : Nat → ℚ → ℚ → Regime → ℚ
  | 0, totalIncome, taxBeforeSurcharge, regime =>
    if taxBeforeSurcharge ≤ 0 then 0
    else jsMax 0 (taxBeforeSurcharge * appRate totalIncome regime)
  | fuel + 1, totalIncome, taxBeforeSurcharge, regime =>
    if taxBeforeSurcharge ≤ 0 then 0
    else
      jsMax 0 (reliefLoop
        (fun t => (calcInternalGeneric (calculateSurchargeF fuel) t 0 regime).taxBeforeCess)
        totalIncome taxBeforeSurcharge surchargeRatesFY2024_25
        (taxBeforeSurcharge * appRate totalIncome regime))

/-- `calculateTaxPayableInternal(grossIncome, totalDeductions, regime,
taxDataFY2024_25)`. -/
def calculateTaxPayableInternal (grossIncome totalDeductions : ℚ) (regime : Regime) :
    TaxResult :=
  calcInternalGeneric (calculateSurchargeF 2) grossIncome totalDeductions regime

/-- The exported `calculateTaxPayable`. -/
def calculateTaxPayable (grossIncome totalDeductions : ℚ) (regime : Regime) : TaxResult :=
  calculateTaxPayableInternal grossIncome totalDeductions regime

theorem calculateSurchargeF_zero (ti t : ℚ) (r : Regime) :
    calculateSurchargeF 0 ti t r =
      if t ≤ 0 then 0
      else jsMax 0 (t * appRate ti r) := rfl

theorem calculateSurchargeF_succ (fuel : Nat) (ti t : ℚ) (r : Regime) :
    calculateSurchargeF (fuel + 1) ti t r =
      if t ≤ 0 then 0
      else jsMax 0 (reliefLoop
        (fun x => (calcInternalGeneric (calculateSurchargeF fuel) x 0 r).taxBeforeCess)
        ti t surchargeRatesFY2024_25
        (t * appRate ti r)) := rfl

theorem calculateSurchargeF_one (ti t : ℚ) (r : Regime) :
    calculateSurchargeF 1 ti t r =
      if t ≤ 0 then 0
      else jsMax 0 (reliefLoop
        (fun x => (calcInternalGeneric (calculateSurchargeF 0) x 0 r).taxBeforeCess)
        ti t surchargeRatesFY2024_25
        (t * appRate ti r)) :=
  calculateSurchargeF_succ 0 ti t r

theorem calculateSurchargeF_two (ti t : ℚ) (r : Regime) :
    calculateSurchargeF 2 ti t r =
      if t ≤ 0 then 0
      else jsMax 0 (reliefLoop
        (fun x => (calcInternalGeneric (calculateSurchargeF 1) x 0 r).taxBeforeCess)
        ti t surchargeRatesFY2024_25
        (t * appRate ti r)) :=
  calculateSurchargeF_succ 1 ti t r

/-! ## Closed forms for the slab-tax loop and the surcharge rate loop -/

/-- Closed form of the New-regime slab schedule. -/
def newSlabTax (x : ℚ) : ℚ :=
  if x ≤ 300000 then 0
  else if x ≤ 600000 then (x - 300000) * (1/20)
  else if x ≤ 900000 then 15000 + (x - 600000) * (1/10)
  else if x ≤ 1200000 then 45000 + (x - 900000) * (3/20)
  else if x ≤ 1500000 then 90000 + (x - 1200000) * (1/5)
  else 150000 + (x - 1500000) * (3/10)

/-- Closed form of the Old-regime slab schedule. -/
def oldSlabTax (x : ℚ) : ℚ :=
  if x ≤ 250000 then 0
  else if x ≤ 500000 then (x - 250000) * (1/20)
  else if x ≤ 1000000 then 12500 + (x - 500000) * (1/5)
  else 112500 + (x - 1000000) * (3/10)

theorem newSlabTax_nonneg (x : ℚ) : 0 ≤ newSlabTax x := by
  unfold newSlabTax; split_ifs <;> linarith

theorem oldSlabTax_nonneg (x : ℚ) : 0 ≤ oldSlabTax x := by
  unfold oldSlabTax; split_ifs <;> linarith

theorem calculateSlabTax_new (x : ℚ) :
    calculateSlabTax x (regimeDataOf Regime.new).slabs = newSlabTax x := by
  have key : slabTaxAux x (regimeDataOf Regime.new).slabs 0 0 = newSlabTax x := by
    rcases le_or_lt x 0 with h0 | h0
    · have h1 : x ≤ 300000 := by linarith
      norm_num [slabTaxAux, newSlabTax, regimeDataOf, taxDataFY2024_25, jsMax, jsMin, h0, h1]
    · have h0' : ¬x ≤ 0 := not_le.mpr h0
      rcases le_or_lt x 300000 with h1 | h1
      · norm_num [slabTaxAux, newSlabTax, regimeDataOf, taxDataFY2024_25, jsMax, jsMin, h0',
          h1]
      · have h1' : ¬x ≤ 300000 := not_le.mpr h1
        rcases le_or_lt x 600000 with h2 | h2
        · norm_num [slabTaxAux, newSlabTax, regimeDataOf, taxDataFY2024_25, jsMax, jsMin,
            h0', h1', h2]
        · have h2' : ¬x ≤ 600000 := not_le.mpr h2
          rcases le_or_lt x 900000 with h3 | h3
          · norm_num [slabTaxAux, newSlabTax, regimeDataOf, taxDataFY2024_25, jsMax, jsMin,
              h0', h1', h2', h3]
          · have h3' : ¬x ≤ 900000 := not_le.mpr h3
            rcases le_or_lt x 1200000 with h4 | h4
            · norm_num [slabTaxAux, newSlabTax, regimeDataOf, taxDataFY2024_25, jsMax, jsMin,
                h0', h1', h2', h3', h4]
            · have h4' : ¬x ≤ 1200000 := not_le.mpr h4
              rcases le_or_lt x 1500000 with h5 | h5
              · norm_num [slabTaxAux, newSlabTax, regimeDataOf, taxDataFY2024_25, jsMax,
                  jsMin, h0', h1', h2', h3', h4', h5]
              · have h5' : ¬x ≤ 1500000 := not_le.mpr h5
                norm_num [slabTaxAux, newSlabTax, regimeDataOf, taxDataFY2024_25, jsMax,
                  jsMin, h0', h1', h2', h3', h4', h5']
  rw [calculateSlabTax, key, jsMax_eq, max_eq_right (newSlabTax_nonneg x)]

theorem calculateSlabTax_old (x : ℚ) :
    calculateSlabTax x (regimeDataOf Regime.old).slabs = oldSlabTax x := by
  have key : slabTaxAux x (regimeDataOf Regime.old).slabs 0 0 = oldSlabTax x := by
    rcases le_or_lt x 0 with h0 | h0
    · have h1 : x ≤ 250000 := by linarith
      norm_num [slabTaxAux, oldSlabTax, regimeDataOf, taxDataFY2024_25, jsMax, jsMin, h0, h1]
    · have h0' : ¬x ≤ 0 := not_le.mpr h0
      rcases le_or_lt x 250000 with h1 | h1
      · norm_num [slabTaxAux, oldSlabTax, regimeDataOf, taxDataFY2024_25, jsMax, jsMin, h0',
          h1]
      · have h1' : ¬x ≤ 250000 := not_le.mpr h1
        rcases le_or_lt x 500000 with h2 | h2
        · norm_num [slabTaxAux, oldSlabTax, regimeDataOf, taxDataFY2024_25, jsMax, jsMin,
            h0', h1', h2]
        · have h2' : ¬x ≤ 500000 := not_le.mpr h2
          rcases le_or_lt x 1000000 with h3 | h3
          · norm_num [slabTaxAux, oldSlabTax, regimeDataOf, taxDataFY2024_25, jsMax, jsMin,
              h0', h1', h2', h3]
          · have h3' : ¬x ≤ 1000000 := not_le.mpr h3
            norm_num [slabTaxAux, oldSlabTax, regimeDataOf, taxDataFY2024_25, jsMax, jsMin,
              h0', h1', h2', h3']
  rw [calculateSlabTax, key, jsMax_eq, max_eq_right (oldSlabTax_nonneg x)]

theorem newSlabTax_mono {x y : ℚ} (h : x ≤ y) : newSlabTax x ≤ newSlabTax y := by
  unfold newSlabTax; split_ifs <;> linarith

theorem oldSlabTax_mono {x y : ℚ} (h : x ≤ y) : oldSlabTax x ≤ oldSlabTax y := by
  unfold oldSlabTax; split_ifs <;> linarith

theorem appRate_eq (totalIncome : ℚ) (regime : Regime) :
    appRate totalIncome regime =
      if totalIncome ≤ 5000000 then 0
      else if totalIncome ≤ 10000000 then 1/10
      else if totalIncome ≤ 20000000 then 3/20
      else if totalIncome ≤ 50000000 then 1/4
      else if regime = Regime.new then 1/4 else 37/100 := by
  cases regime <;>
    simp only [appRate, rateLoop, surchargeRatesFY2024_25, jsMin, regime_new_eq_old_iff,
      regime_old_eq_new_iff] <;>
    norm_num

theorem appRate_nonneg (totalIncome : ℚ) (regime : Regime) : 0 ≤ appRate totalIncome regime := by
  rw [appRate_eq]; split_ifs <;> norm_num

theorem appRate_le_one (totalIncome : ℚ) (regime : Regime) : appRate totalIncome regime ≤ 1 := by
  rw [appRate_eq]; split_ifs <;> norm_num

theorem appRate_mono {x y : ℚ} (h : x ≤ y) (regime : Regime) :
    appRate x regime ≤ appRate y regime := by
  rw [appRate_eq, appRate_eq]
  split_ifs <;> try norm_num
  all_goals linarith

/-! ## Marginal-relief windows -/

/-- `totalIncome` lies in the marginal-relief scan window of threshold `T`. -/
def inWindow (ti T : ℚ) : Prop := T < ti ∧ ti ≤ T * (21/20)

/-- `totalIncome` lies in no relief window of the FY 2024-25 tier table. -/
def noWindow (ti : ℚ) : Prop :=
  ¬inWindow ti 5000000 ∧ ¬inWindow ti 10000000 ∧ ¬inWindow ti 20000000 ∧ ¬inWindow ti 50000000

theorem reliefLoop_nil (nested : ℚ → ℚ) (ti t s : ℚ) : reliefLoop nested ti t [] s = s := rfl

theorem reliefLoop_cons_none (nested : ℚ → ℚ) (ti t : ℚ) (a b c : ℚ)
    (rest : List RateInfo) (s : ℚ) :
    reliefLoop nested ti t (⟨none, a, b, c⟩ :: rest) s = reliefLoop nested ti t rest s := rfl

theorem reliefLoop_cons_skip {nested : ℚ → ℚ} {ti t T : ℚ} (a b c : ℚ)
    {rest : List RateInfo} {s : ℚ} (hT : ¬T = 0) (hw : ¬inWindow ti T) :
    reliefLoop nested ti t (⟨some T, a, b, c⟩ :: rest) s = reliefLoop nested ti t rest s := by
  simp only [reliefLoop]
  rw [if_neg hT, if_neg (show ¬(T < ti ∧ ti ≤ T * (21/20)) from hw)]

theorem reliefLoop_cons_window {nested : ℚ → ℚ} {ti t T : ℚ} (a b c : ℚ)
    {rest : List RateInfo} {s : ℚ} (hT : ¬T = 0) (hw : inWindow ti T) :
    reliefLoop nested ti t (⟨some T, a, b, c⟩ :: rest) s =
      if ti - T < t + s - nested T then jsMax 0 (s - (t + s - nested T - (ti - T)))
      else reliefLoop nested ti t rest s := by
  simp only [reliefLoop]
  rw [if_neg hT, if_pos (show T < ti ∧ ti ≤ T * (21/20) from hw)]

theorem reliefLoop_noWindow (nested : ℚ → ℚ) (ti t s : ℚ) (h : noWindow ti) :
    reliefLoop nested ti t surchargeRatesFY2024_25 s = s := by
  obtain ⟨h5, h10, h20, h50⟩ := h
  unfold surchargeRatesFY2024_25
  rw [reliefLoop_cons_skip _ _ _ (by norm_num) h5,
      reliefLoop_cons_skip _ _ _ (by norm_num) h10,
      reliefLoop_cons_skip _ _ _ (by norm_num) h20,
      reliefLoop_cons_skip _ _ _ (by norm_num) h50,
      reliefLoop_cons_none, reliefLoop_nil]

theorem reliefLoop_window5 (nested : ℚ → ℚ) (ti t s : ℚ) (hw : inWindow ti 5000000) :
    reliefLoop nested ti t surchargeRatesFY2024_25 s =
      if ti - 5000000 < t + s - nested 5000000
      then jsMax 0 (s - (t + s - nested 5000000 - (ti - 5000000)))
      else s := by
  obtain ⟨hgt, hle⟩ := hw
  have h10 : ¬inWindow ti 10000000 := by rintro ⟨h', -⟩; linarith
  have h20 : ¬inWindow ti 20000000 := by rintro ⟨h', -⟩; linarith
  have h50 : ¬inWindow ti 50000000 := by rintro ⟨h', -⟩; linarith
  unfold surchargeRatesFY2024_25
  rw [reliefLoop_cons_window _ _ _ (by norm_num) ⟨hgt, hle⟩,
      reliefLoop_cons_skip _ _ _ (by norm_num) h10,
      reliefLoop_cons_skip _ _ _ (by norm_num) h20,
      reliefLoop_cons_skip _ _ _ (by norm_num) h50,
      reliefLoop_cons_none, reliefLoop_nil]

theorem reliefLoop_window10 (nested : ℚ → ℚ) (ti t s : ℚ) (hw : inWindow ti 10000000) :
    reliefLoop nested ti t surchargeRatesFY2024_25 s =
      if ti - 10000000 < t + s - nested 10000000
      then jsMax 0 (s - (t + s - nested 10000000 - (ti - 10000000)))
      else s := by
  obtain ⟨hgt, hle⟩ := hw
  have h5 : ¬inWindow ti 5000000 := by rintro ⟨-, h'⟩; linarith
  have h20 : ¬inWindow ti 20000000 := by rintro ⟨h', -⟩; linarith
  have h50 : ¬inWindow ti 50000000 := by rintro ⟨h', -⟩; linarith
  unfold surchargeRatesFY2024_25
  rw [reliefLoop_cons_skip _ _ _ (by norm_num) h5,
      reliefLoop_cons_window _ _ _ (by norm_num) ⟨hgt, hle⟩,
      reliefLoop_cons_skip _ _ _ (by norm_num) h20,
      reliefLoop_cons_skip _ _ _ (by norm_num) h50,
      reliefLoop_cons_none, reliefLoop_nil]

theorem reliefLoop_window20 (nested : ℚ → ℚ) (ti t s : ℚ) (hw : inWindow ti 20000000) :
    reliefLoop nested ti t surchargeRatesFY2024_25 s =
      if ti - 20000000 < t + s - nested 20000000
      then jsMax 0 (s - (t + s - nested 20000000 - (ti - 20000000)))
      else s := by
  obtain ⟨hgt, hle⟩ := hw
  have h5 : ¬inWindow ti 5000000 := by rintro ⟨-, h'⟩; linarith
  have h10 : ¬inWindow ti 10000000 := by rintro ⟨-, h'⟩; linarith
  have h50 : ¬inWindow ti 50000000 := by rintro ⟨h', -⟩; linarith
  unfold surchargeRatesFY2024_25
  rw [reliefLoop_cons_skip _ _ _ (by norm_num) h5,
      reliefLoop_cons_skip _ _ _ (by norm_num) h10,
      reliefLoop_cons_window _ _ _ (by norm_num) ⟨hgt, hle⟩,
      reliefLoop_cons_skip _ _ _ (by norm_num) h50,
      reliefLoop_cons_none, reliefLoop_nil]

theorem reliefLoop_window50 (nested : ℚ → ℚ) (ti t s : ℚ) (hw : inWindow ti 50000000) :
    reliefLoop nested ti t surchargeRatesFY2024_25 s =
      if ti - 50000000 < t + s - nested 50000000
      then jsMax 0 (s - (t + s - nested 50000000 - (ti - 50000000)))
      else s := by
  obtain ⟨hgt, hle⟩ := hw
  have h5 : ¬inWindow ti 5000000 := by rintro ⟨-, h'⟩; linarith
  have h10 : ¬inWindow ti 10000000 := by rintro ⟨-, h'⟩; linarith
  have h20 : ¬inWindow ti 20000000 := by rintro ⟨-, h'⟩; linarith
  unfold surchargeRatesFY2024_25
  rw [reliefLoop_cons_skip _ _ _ (by norm_num) h5,
      reliefLoop_cons_skip _ _ _ (by norm_num) h10,
      reliefLoop_cons_skip _ _ _ (by norm_num) h20,
      reliefLoop_cons_window _ _ _ (by norm_num) ⟨hgt, hle⟩,
      reliefLoop_cons_none, reliefLoop_nil]

theorem appRate_window5 (ti : ℚ) (r : Regime) (hw : inWindow ti 5000000) :
    appRate ti r = 1/10 := by
  obtain ⟨hgt, hle⟩ := hw
  rw [appRate_eq, if_neg (by linarith), if_pos (by linarith)]

theorem appRate_window10 (ti : ℚ) (r : Regime) (hw : inWindow ti 10000000) :
    appRate ti r = 3/20 := by
  obtain ⟨hgt, hle⟩ := hw
  rw [appRate_eq, if_neg (by linarith), if_neg (by linarith), if_pos (by linarith)]

theorem appRate_window20 (ti : ℚ) (r : Regime) (hw : inWindow ti 20000000) :
    appRate ti r = 1/4 := by
  obtain ⟨hgt, hle⟩ := hw
  rw [appRate_eq, if_neg (by linarith), if_neg (by linarith), if_neg (by linarith),
    if_pos (by linarith)]

theorem appRate_window50 (ti : ℚ) (r : Regime) (hw : inWindow ti 50000000) :
    appRate ti r = if r = Regime.new then 1/4 else 37/100 := by
  obtain ⟨hgt, hle⟩ := hw
  rw [appRate_eq, if_neg (by linarith), if_neg (by linarith), if_neg (by linarith),
    if_neg (by linarith)]

/-! ## Non-negativity and characterization of the fuel-2 pipeline -/

theorem taxBeforeRebateOf_nonneg (g d : ℚ) (r : Regime) : 0 ≤ taxBeforeRebateOf g d r := by
  rw [taxBeforeRebateOf, calculateSlabTax, jsMax_eq]; exact le_max_left _ _

theorem taxableIncomeOf_nonneg (g d : ℚ) (r : Regime) : 0 ≤ taxableIncomeOf g d r := by
  rw [taxableIncomeOf, jsMax_eq]; exact le_max_left _ _

theorem taxAfterRebateOf_nonneg (g d : ℚ) (r : Regime) : 0 ≤ taxAfterRebateOf g d r := by
  rw [taxAfterRebateOf, jsMax_eq]; exact le_max_left _ _

theorem rebateOf_nonneg (g d : ℚ) (r : Regime) : 0 ≤ rebateOf g d r := by
  have h := taxBeforeRebateOf_nonneg g d r
  cases r <;> simp only [rebateOf, regimeDataOf, taxDataFY2024_25] <;> split_ifs <;>
    first
    | rfl
    | (rw [jsMin_eq]; exact le_min h (by norm_num))

theorem surchargeF_nonneg (fuel : Nat) (ti t : ℚ) (r : Regime) :
    0 ≤ calculateSurchargeF fuel ti t r := by
  cases fuel with
  | zero =>
    rw [calculateSurchargeF_zero]
    split_ifs
    · exact le_refl 0
    · rw [jsMax_eq]; exact le_max_left _ _
  | succ f =>
    rw [calculateSurchargeF_succ]
    split_ifs
    · exact le_refl 0
    · rw [jsMax_eq]; exact le_max_left _ _

theorem surchargeF_noWindow (fuel : Nat) (ti t : ℚ) (r : Regime) (h : noWindow ti) :
    calculateSurchargeF fuel ti t r = calculateSurchargeF 0 ti t r := by
  cases fuel with
  | zero => rfl
  | succ f =>
    rw [calculateSurchargeF_succ, calculateSurchargeF_zero]
    by_cases ht : t ≤ 0
    · rw [if_pos ht, if_pos ht]
    · rw [if_neg ht, if_neg ht, reliefLoop_noWindow _ _ _ _ h]

/-- The slab-to-surcharge pipeline value `taxAfterRebate * (1 + applicableRate)`:
the tax before cess when no marginal relief applies. -/
def taxA (g d : ℚ) (r : Regime) : ℚ :=
  taxAfterRebateOf g d r * (1 + appRate (surchargeBaseOf g r) r)

/-- The threshold recomputation value used by the marginal-relief phase of the
program: `calculateTaxPayableInternal(T, 0, regime).taxBeforeCess`, at the
fuel the program actually runs the nested call with. -/
def nestedTBC (T : ℚ) (r : Regime) : ℚ :=
  (calcInternalGeneric (calculateSurchargeF 1) T 0 r).taxBeforeCess

theorem nestedTBC_nonneg (T : ℚ) (r : Regime) : 0 ≤ nestedTBC T r :=
  add_nonneg (taxAfterRebateOf_nonneg T 0 r) (surchargeF_nonneg 1 _ _ r)

/-- Shorthand for the `taxBeforeCess` field produced by the program. -/
def tbcP (g d : ℚ) (r : Regime) : ℚ := (calculateTaxPayableInternal g d r).taxBeforeCess

theorem tbcP_eq (g d : ℚ) (r : Regime) :
    tbcP g d r = taxAfterRebateOf g d r +
      calculateSurchargeF 2 (surchargeBaseOf g r) (taxAfterRebateOf g d r) r := rfl

theorem tbcP_nonneg (g d : ℚ) (r : Regime) : 0 ≤ tbcP g d r :=
  add_nonneg (taxAfterRebateOf_nonneg g d r) (surchargeF_nonneg 2 _ _ r)

theorem totalTaxP_eq (g d : ℚ) (r : Regime) :
    (calculateTaxPayableInternal g d r).totalTax = jsRound (tbcP g d r * (26/25)) := by
  show jsRound (tbcP g d r + tbcP g d r * CESS_RATE) = _
  congr 1
  rw [CESS_RATE]
  ring

theorem jsRound_mono {x y : ℚ} (h : x ≤ y) : jsRound x ≤ jsRound y := by
  rw [jsRound_eq, jsRound_eq]
  exact_mod_cast Int.floor_le_floor (by linarith)

theorem jsRound_le (x : ℚ) : jsRound x ≤ x + 1/2 := by
  rw [jsRound_eq]; exact Int.floor_le _

theorem jsRound_ge (x : ℚ) : x - 1/2 ≤ jsRound x := by
  rw [jsRound_eq]
  have := Int.sub_one_lt_floor (x + 1/2)
  have h2 : (x + 1/2) - 1 < (⌊x + 1/2⌋ : ℚ) := this
  linarith

/-- The algebra of one marginal-relief step: tax plus the clamped relieved
surcharge equals either `max(taxAfterRebate, taxOnThreshold + incomeIncrease)`
(relief branch) or the unrelieved pipeline value. -/
theorem surcharge_relief_algebra (t n w ρ : ℚ) (htpos : 0 < t) (hn : 0 ≤ n) (hw : 0 < w)
    (hρ : 0 ≤ ρ) :
    t + jsMax 0 (if w < t + t * ρ - n then jsMax 0 (t * ρ - (t + t * ρ - n - w)) else t * ρ)
      = if n + w < t * (1 + ρ) then max t (n + w) else t * (1 + ρ) := by
  have e : t * (1 + ρ) = t + t * ρ := by ring
  by_cases hc : n + w < t * (1 + ρ)
  · rw [if_pos hc]
    rw [e] at hc
    rw [if_pos (by linarith)]
    have e2 : t * ρ - (t + t * ρ - n - w) = n + w - t := by ring
    rw [e2, jsMax_eq, jsMax_eq, ← max_assoc, max_self]
    rcases le_total (n + w) t with h | h
    · rw [max_eq_left (by linarith), max_eq_left h]; ring
    · rw [max_eq_right (by linarith), max_eq_right h]; ring
  · rw [if_neg hc]
    rw [e] at hc
    rw [if_neg (by intro h'; exact hc (by linarith))]
    rw [jsMax_eq, max_eq_right (mul_nonneg htpos.le hρ), e]

theorem tbcP_noWindow (g d : ℚ) (r : Regime) (h : noWindow (surchargeBaseOf g r)) :
    tbcP g d r = taxA g d r := by
  rw [tbcP_eq, calculateSurchargeF_two, taxA]
  by_cases ht : taxAfterRebateOf g d r ≤ 0
  · have ht0 : taxAfterRebateOf g d r = 0 := le_antisymm ht (taxAfterRebateOf_nonneg g d r)
    rw [if_pos ht, ht0]; ring
  · rw [if_neg ht, reliefLoop_noWindow _ _ _ _ h, jsMax_eq]
    push_neg at ht
    rw [max_eq_right (mul_nonneg ht.le (appRate_nonneg _ r))]
    ring

theorem tbcP_window (g d : ℚ) (r : Regime) (T : ℚ)
    (hT : T = 5000000 ∨ T = 10000000 ∨ T = 20000000 ∨ T = 50000000)
    (hw : inWindow (surchargeBaseOf g r) T) :
    tbcP g d r =
      if nestedTBC T r + (surchargeBaseOf g r - T) < taxA g d r
      then max (taxAfterRebateOf g d r) (nestedTBC T r + (surchargeBaseOf g r - T))
      else taxA g d r := by
  have hrel : ∀ (nested : ℚ → ℚ) (t s : ℚ),
      reliefLoop nested (surchargeBaseOf g r) t surchargeRatesFY2024_25 s =
        if surchargeBaseOf g r - T < t + s - nested T
        then jsMax 0 (s - (t + s - nested T - (surchargeBaseOf g r - T)))
        else s := by
    rcases hT with rfl | rfl | rfl | rfl
    · exact fun nested t s => reliefLoop_window5 nested _ t s hw
    · exact fun nested t s => reliefLoop_window10 nested _ t s hw
    · exact fun nested t s => reliefLoop_window20 nested _ t s hw
    · exact fun nested t s => reliefLoop_window50 nested _ t s hw
  have hB : 0 ≤ nestedTBC T r := nestedTBC_nonneg T r
  have hwpos : 0 < surchargeBaseOf g r - T := by have := hw.1; linarith
  rw [tbcP_eq, calculateSurchargeF_two, taxA]
  by_cases ht : taxAfterRebateOf g d r ≤ 0
  · have ht0 : taxAfterRebateOf g d r = 0 := le_antisymm ht (taxAfterRebateOf_nonneg g d r)
    rw [if_pos ht, ht0, if_neg (by intro h'; nlinarith)]
    ring
  · rw [if_neg ht, hrel]
    push_neg at ht
    exact surcharge_relief_algebra _ _ _ _ ht hB hwpos (appRate_nonneg _ r)

/-! ## Closed forms and monotonicity for the deduction / rebate stages -/

theorem surchargeBaseOf_old (g : ℚ) : surchargeBaseOf g Regime.old = g := by
  simp [surchargeBaseOf]

theorem surchargeBaseOf_new (g : ℚ) :
    surchargeBaseOf g Regime.new = incomeAfterStdDedOf g Regime.new := by
  simp [surchargeBaseOf, regime_new_eq_old_iff]

theorem incomeAfterStdDedOf_eq (g : ℚ) (r : Regime) :
    incomeAfterStdDedOf g r = if 0 < g then max 0 (g - 50000) else g := by
  cases r <;>
    · simp only [incomeAfterStdDedOf, regimeDataOf, taxDataFY2024_25, jsMax_eq]
      norm_num

theorem incomeAfterStdDedOf_mono (r : Regime) {g1 g2 : ℚ} (h : g1 ≤ g2) :
    incomeAfterStdDedOf g1 r ≤ incomeAfterStdDedOf g2 r := by
  rw [incomeAfterStdDedOf_eq, incomeAfterStdDedOf_eq]
  split_ifs with h1 h2
  · exact max_le_max (le_refl 0) (by linarith)
  · linarith
  · exact le_trans (by linarith) (le_max_left 0 _)
  · exact h

theorem surchargeBaseOf_mono (r : Regime) {g1 g2 : ℚ} (h : g1 ≤ g2) :
    surchargeBaseOf g1 r ≤ surchargeBaseOf g2 r := by
  cases r
  · rw [surchargeBaseOf_new, surchargeBaseOf_new]; exact incomeAfterStdDedOf_mono _ h
  · rw [surchargeBaseOf_old, surchargeBaseOf_old]; exact h

theorem taxableIncomeOf_new_eq (g d : ℚ) :
    taxableIncomeOf g d Regime.new = jsMax 0 (incomeAfterStdDedOf g Regime.new) := by
  simp [taxableIncomeOf, regime_new_eq_old_iff]

theorem taxableIncomeOf_old_eq (g d : ℚ) :
    taxableIncomeOf g d Regime.old =
      jsMax 0 (jsMax 0 (incomeAfterStdDedOf g Regime.old - d)) := by
  simp [taxableIncomeOf]

/-- Taxable income is monotone when gross income rises and deductions fall
(in the Old regime; the New regime ignores deductions). -/
theorem taxableIncomeOf_le {g1 g2 d1 d2 : ℚ} (r : Regime) (hg : g1 ≤ g2) (hd : d2 ≤ d1) :
    taxableIncomeOf g1 d1 r ≤ taxableIncomeOf g2 d2 r := by
  have hb := incomeAfterStdDedOf_mono r hg
  cases r
  · rw [taxableIncomeOf_new_eq, taxableIncomeOf_new_eq, jsMax_eq, jsMax_eq]
    exact max_le_max (le_refl 0) hb
  · rw [taxableIncomeOf_old_eq, taxableIncomeOf_old_eq]
    simp only [jsMax_eq]
    exact max_le_max (le_refl 0) (max_le_max (le_refl 0) (by linarith))

theorem taxAfterRebateOf_new_eq (g d : ℚ) :
    taxAfterRebateOf g d Regime.new =
      if taxableIncomeOf g d Regime.new ≤ 700000
      then max 0 (newSlabTax (taxableIncomeOf g d Regime.new) - 25000)
      else newSlabTax (taxableIncomeOf g d Regime.new) := by
  have hf : taxBeforeRebateOf g d Regime.new = newSlabTax (taxableIncomeOf g d Regime.new) := by
    rw [taxBeforeRebateOf, calculateSlabTax_new]
  have hnn := newSlabTax_nonneg (taxableIncomeOf g d Regime.new)
  rw [taxAfterRebateOf, hf]
  have hr : rebateOf g d Regime.new =
      if taxableIncomeOf g d Regime.new ≤ 700000
      then jsMin (newSlabTax (taxableIncomeOf g d Regime.new)) 25000 else 0 := by
    simp only [rebateOf, regimeDataOf, taxDataFY2024_25, hf]
    norm_num
  rw [hr]
  split_ifs with h1
  · rw [jsMin_eq, jsMax_eq]
    rcases le_total (newSlabTax (taxableIncomeOf g d Regime.new)) 25000 with h2 | h2
    · have h3 : newSlabTax (taxableIncomeOf g d Regime.new) - 25000 ≤ 0 := by linarith
      rw [min_eq_left h2, sub_self, max_self, max_eq_left h3]
    · rw [min_eq_right h2]
  · rw [jsMax_eq, sub_zero, max_eq_right hnn]

theorem taxAfterRebateOf_old_eq (g d : ℚ) :
    taxAfterRebateOf g d Regime.old =
      if taxableIncomeOf g d Regime.old ≤ 500000
      then max 0 (oldSlabTax (taxableIncomeOf g d Regime.old) - 12500)
      else oldSlabTax (taxableIncomeOf g d Regime.old) := by
  have hf : taxBeforeRebateOf g d Regime.old = oldSlabTax (taxableIncomeOf g d Regime.old) := by
    rw [taxBeforeRebateOf, calculateSlabTax_old]
  have hnn := oldSlabTax_nonneg (taxableIncomeOf g d Regime.old)
  rw [taxAfterRebateOf, hf]
  have hr : rebateOf g d Regime.old =
      if taxableIncomeOf g d Regime.old ≤ 500000
      then jsMin (oldSlabTax (taxableIncomeOf g d Regime.old)) 12500 else 0 := by
    simp only [rebateOf, regimeDataOf, taxDataFY2024_25, hf]
    norm_num
  rw [hr]
  split_ifs with h1
  · rw [jsMin_eq, jsMax_eq]
    rcases le_total (oldSlabTax (taxableIncomeOf g d Regime.old)) 12500 with h2 | h2
    · have h3 : oldSlabTax (taxableIncomeOf g d Regime.old) - 12500 ≤ 0 := by linarith
      rw [min_eq_left h2, sub_self, max_self, max_eq_left h3]
    · rw [min_eq_right h2]
  · rw [jsMax_eq, sub_zero, max_eq_right hnn]

/-- Tax after rebate is monotone in taxable income (per regime). -/
theorem taxAfterRebateOf_le {g1 g2 d1 d2 : ℚ} (r : Regime) (hg : g1 ≤ g2) (hd : d2 ≤ d1) :
    taxAfterRebateOf g1 d1 r ≤ taxAfterRebateOf g2 d2 r := by
  have hx := taxableIncomeOf_le r hg hd
  cases r
  · rw [taxAfterRebateOf_new_eq, taxAfterRebateOf_new_eq]
    have hs := newSlabTax_mono hx
    have hn1 := newSlabTax_nonneg (taxableIncomeOf g1 d1 Regime.new)
    have hn2 := newSlabTax_nonneg (taxableIncomeOf g2 d2 Regime.new)
    split_ifs with h1 h2
    · exact max_le_max (le_refl 0) (by linarith)
    · exact max_le (by linarith) (by linarith)
    · linarith
    · exact hs
  · rw [taxAfterRebateOf_old_eq, taxAfterRebateOf_old_eq]
    have hs := oldSlabTax_mono hx
    have hn1 := oldSlabTax_nonneg (taxableIncomeOf g1 d1 Regime.old)
    have hn2 := oldSlabTax_nonneg (taxableIncomeOf g2 d2 Regime.old)
    split_ifs with h1 h2
    · exact max_le_max (le_refl 0) (by linarith)
    · exact max_le (by linarith) (by linarith)
    · linarith
    · exact hs

/-- The no-relief pipeline value is monotone (gross income up, deductions
down). -/
theorem taxA_le {g1 g2 d1 d2 : ℚ} (r : Regime) (hg : g1 ≤ g2) (hd : d2 ≤ d1) :
    taxA g1 d1 r ≤ taxA g2 d2 r := by
  unfold taxA
  have h1 := taxAfterRebateOf_le r hg hd
  have h2 := appRate_mono (surchargeBaseOf_mono r hg) r
  have h3 := taxAfterRebateOf_nonneg g1 d1 r
  have h4 := taxAfterRebateOf_nonneg g2 d2 r
  have h5 := appRate_nonneg (surchargeBaseOf g1 r) r
  exact mul_le_mul h1 (by linarith) (by linarith) h4

theorem reliefLoop_le (nested : ℚ → ℚ) (ti t : ℚ) (l : List RateInfo) (s : ℚ)
    (hs : 0 ≤ s) : reliefLoop nested ti t l s ≤ s := by
  induction l with
  | nil => exact le_of_eq (reliefLoop_nil nested ti t s)
  | cons ri rest ih =>
    rcases ri with ⟨lim, a, b, c⟩
    cases lim with
    | none => rw [reliefLoop_cons_none]; exact ih
    | some T =>
      by_cases hT : T = 0
      · simp only [reliefLoop]
        rw [if_pos hT]
        exact ih
      · by_cases hw : inWindow ti T
        · rw [reliefLoop_cons_window a b c hT hw]
          split_ifs with hrel
          · rw [jsMax_eq]
            exact max_le hs (by linarith)
          · exact ih
        · rw [reliefLoop_cons_skip a b c hT hw]
          exact ih

theorem tbcP_le_taxA (g d : ℚ) (r : Regime) : tbcP g d r ≤ taxA g d r := by
  rw [tbcP_eq, calculateSurchargeF_two, taxA]
  by_cases ht : taxAfterRebateOf g d r ≤ 0
  · have ht0 : taxAfterRebateOf g d r = 0 := le_antisymm ht (taxAfterRebateOf_nonneg g d r)
    rw [if_pos ht, ht0]
    norm_num
  · rw [if_neg ht]
    push_neg at ht
    have hraw : 0 ≤ taxAfterRebateOf g d r * appRate (surchargeBaseOf g r) r :=
      mul_nonneg ht.le (appRate_nonneg _ r)
    have h1 := reliefLoop_le
      (fun t => (calcInternalGeneric (calculateSurchargeF 1) t 0 r).taxBeforeCess)
      (surchargeBaseOf g r) (taxAfterRebateOf g d r) surchargeRatesFY2024_25
      (taxAfterRebateOf g d r * appRate (surchargeBaseOf g r) r) hraw
    rw [jsMax_eq]
    have h2 := max_le hraw h1
    have e : taxAfterRebateOf g d r * (1 + appRate (surchargeBaseOf g r) r) =
        taxAfterRebateOf g d r + taxAfterRebateOf g d r * appRate (surchargeBaseOf g r) r := by
      ring
    rw [e]
    linarith

/-- At a tier threshold the nested recomputation never falls in a relief
window, so its `taxBeforeCess` is exactly the no-relief pipeline value. -/
theorem nestedTBC_eq_taxA (T : ℚ) (r : Regime) (h : noWindow (surchargeBaseOf T r)) :
    nestedTBC T r = taxA T 0 r := by
  show taxAfterRebateOf T 0 r +
      calculateSurchargeF 1 (surchargeBaseOf T r) (taxAfterRebateOf T 0 r) r = _
  rw [surchargeF_noWindow 1 _ _ _ h, calculateSurchargeF_zero, taxA]
  by_cases ht : taxAfterRebateOf T 0 r ≤ 0
  · have ht0 : taxAfterRebateOf T 0 r = 0 := le_antisymm ht (taxAfterRebateOf_nonneg T 0 r)
    rw [if_pos ht, ht0]; ring
  · rw [if_neg ht, jsMax_eq]
    push_neg at ht
    rw [max_eq_right (mul_nonneg ht.le (appRate_nonneg _ r))]
    ring

/-! ## Old-regime monotonicity of `taxBeforeCess` -/

theorem tbcP_old_mono_window {g1 g2 d T : ℚ} (hd : 0 ≤ d) (h : g1 ≤ g2)
    (hT : T = 5000000 ∨ T = 10000000 ∨ T = 20000000 ∨ T = 50000000)
    (hw2 : inWindow g2 T) :
    tbcP g1 d Regime.old ≤ tbcP g2 d Regime.old := by
  have hb1 := surchargeBaseOf_old g1
  have hb2 := surchargeBaseOf_old g2
  have hw2' : inWindow (surchargeBaseOf g2 Regime.old) T := by rw [hb2]; exact hw2
  have hTnw : noWindow (surchargeBaseOf T Regime.old) := by
    rw [surchargeBaseOf_old]
    rcases hT with rfl | rfl | rfl | rfl <;> norm_num [noWindow, inWindow]
  have hnest : nestedTBC T Regime.old = taxA T 0 Regime.old := nestedTBC_eq_taxA T _ hTnw
  rw [tbcP_window g2 d Regime.old T hT hw2']
  split_ifs with hc
  · by_cases hg1T : g1 ≤ T
    · have h1 := tbcP_le_taxA g1 d Regime.old
      have h2 : taxA g1 d Regime.old ≤ taxA T 0 Regime.old := taxA_le _ hg1T hd
      have h3 : nestedTBC T Regime.old ≤ nestedTBC T Regime.old +
          (surchargeBaseOf g2 Regime.old - T) := by
        rw [hb2]; have := hw2.1; linarith
      exact le_trans (le_trans h1 (by linarith))
        (le_max_right (taxAfterRebateOf g2 d Regime.old) _)
    · push_neg at hg1T
      have hw1 : inWindow g1 T := ⟨hg1T, le_trans h hw2.2⟩
      have hw1' : inWindow (surchargeBaseOf g1 Regime.old) T := by rw [hb1]; exact hw1
      rw [tbcP_window g1 d Regime.old T hT hw1']
      have htar : taxAfterRebateOf g1 d Regime.old ≤ taxAfterRebateOf g2 d Regime.old :=
        taxAfterRebateOf_le _ h (le_refl d)
      have hB12 : nestedTBC T Regime.old + (surchargeBaseOf g1 Regime.old - T) ≤
          nestedTBC T Regime.old + (surchargeBaseOf g2 Regime.old - T) := by
        rw [hb1, hb2]; linarith
      split_ifs with hc1
      · exact max_le_max htar hB12
      · exact le_trans (le_of_not_lt hc1) (le_trans hB12 (le_max_right _ _))
  · exact le_trans (tbcP_le_taxA g1 d Regime.old) (taxA_le _ h (le_refl d))

theorem tbcP_old_mono {g1 g2 d : ℚ} (hd : 0 ≤ d) (h : g1 ≤ g2) :
    tbcP g1 d Regime.old ≤ tbcP g2 d Regime.old := by
  by_cases w5 : inWindow g2 5000000
  · exact tbcP_old_mono_window hd h (Or.inl rfl) w5
  · by_cases w10 : inWindow g2 10000000
    · exact tbcP_old_mono_window hd h (Or.inr (Or.inl rfl)) w10
    · by_cases w20 : inWindow g2 20000000
      · exact tbcP_old_mono_window hd h (Or.inr (Or.inr (Or.inl rfl))) w20
      · by_cases w50 : inWindow g2 50000000
        · exact tbcP_old_mono_window hd h (Or.inr (Or.inr (Or.inr rfl))) w50
        · have hnw : noWindow (surchargeBaseOf g2 Regime.old) := by
            rw [surchargeBaseOf_old]; exact ⟨w5, w10, w20, w50⟩
          rw [tbcP_noWindow g2 d Regime.old hnw]
          exact le_trans (tbcP_le_taxA g1 d Regime.old) (taxA_le _ h (le_refl d))

/-- Old-regime `taxBeforeCess` is non-increasing in the deduction amount. -/
theorem tbcP_old_anti_d {g d1 d2 : ℚ} (hd : d1 ≤ d2) :
    tbcP g d2 Regime.old ≤ tbcP g d1 Regime.old := by
  have htar : taxAfterRebateOf g d2 Regime.old ≤ taxAfterRebateOf g d1 Regime.old :=
    taxAfterRebateOf_le _ (le_refl g) hd
  have hA : taxA g d2 Regime.old ≤ taxA g d1 Regime.old := taxA_le _ (le_refl g) hd
  have hcase : ∀ T, (T = 5000000 ∨ T = 10000000 ∨ T = 20000000 ∨ T = 50000000) →
      inWindow (surchargeBaseOf g Regime.old) T →
      tbcP g d2 Regime.old ≤ tbcP g d1 Regime.old := by
    intro T hT hw
    rw [tbcP_window g d2 Regime.old T hT hw, tbcP_window g d1 Regime.old T hT hw]
    split_ifs with hc2 hc1 hc1
    · exact max_le_max htar (le_refl _)
    · exact absurd hc2 (not_lt.mpr (hA.trans (le_of_not_lt hc1)))
    · exact le_trans (le_of_not_lt hc2) (le_max_right _ _)
    · exact hA
  by_cases w5 : inWindow (surchargeBaseOf g Regime.old) 5000000
  · exact hcase 5000000 (Or.inl rfl) w5
  · by_cases w10 : inWindow (surchargeBaseOf g Regime.old) 10000000
    · exact hcase 10000000 (Or.inr (Or.inl rfl)) w10
    · by_cases w20 : inWindow (surchargeBaseOf g Regime.old) 20000000
      · exact hcase 20000000 (Or.inr (Or.inr (Or.inl rfl))) w20
      · by_cases w50 : inWindow (surchargeBaseOf g Regime.old) 50000000
        · exact hcase 50000000 (Or.inr (Or.inr (Or.inr rfl))) w50
        · have hnw : noWindow (surchargeBaseOf g Regime.old) := ⟨w5, w10, w20, w50⟩
          rw [tbcP_noWindow g d2 Regime.old hnw, tbcP_noWindow g d1 Regime.old hnw]
          exact hA

/-! ## Fuel stability: the relief recursion has depth at most two -/

theorem reliefLoop_congr {n1 n2 : ℚ → ℚ} (ti t : ℚ) (l : List RateInfo) (s : ℚ)
    (h : ∀ ri ∈ l, ∀ T, ri.incomeLimit = some T → n1 T = n2 T) :
    reliefLoop n1 ti t l s = reliefLoop n2 ti t l s := by
  induction l generalizing s with
  | nil => rfl
  | cons ri rest ih =>
    have hrest : ∀ ri ∈ rest, ∀ T, ri.incomeLimit = some T → n1 T = n2 T :=
      fun ri hri => h ri (List.mem_cons_of_mem _ hri)
    rcases ri with ⟨lim, a, b, c⟩
    cases lim with
    | none =>
      rw [reliefLoop_cons_none, reliefLoop_cons_none]
      exact ih _ hrest
    | some T =>
      have hT : n1 T = n2 T := h _ (List.mem_cons_self _ _) T rfl
      simp only [reliefLoop]
      rw [hT]
      split_ifs <;> first | rfl | exact ih _ hrest

theorem nested_fuel_stable (fuel : Nat) (T : ℚ) (r : Regime)
    (hT : T = 5000000 ∨ T = 10000000 ∨ T = 20000000 ∨ T = 50000000) :
    (calcInternalGeneric (calculateSurchargeF fuel) T 0 r).taxBeforeCess =
      (calcInternalGeneric (calculateSurchargeF 0) T 0 r).taxBeforeCess := by
  show taxAfterRebateOf T 0 r +
      calculateSurchargeF fuel (surchargeBaseOf T r) (taxAfterRebateOf T 0 r) r =
    taxAfterRebateOf T 0 r +
      calculateSurchargeF 0 (surchargeBaseOf T r) (taxAfterRebateOf T 0 r) r
  congr 1
  apply surchargeF_noWindow
  cases r <;> rcases hT with rfl | rfl | rfl | rfl <;>
    norm_num [surchargeBaseOf, incomeAfterStdDedOf, regimeDataOf, taxDataFY2024_25, jsMax,
      noWindow, inWindow, regime_new_eq_old_iff]

theorem surchargeF_stable (fuel : Nat) (ti t : ℚ) (r : Regime) :
    calculateSurchargeF (fuel + 1) ti t r = calculateSurchargeF 1 ti t r := by
  rw [calculateSurchargeF_succ, calculateSurchargeF_one]
  by_cases ht : t ≤ 0
  · rw [if_pos ht, if_pos ht]
  · rw [if_neg ht, if_neg ht]
    congr 1
    apply reliefLoop_congr
    intro ri hri T hT
    have hTval : T = 5000000 ∨ T = 10000000 ∨ T = 20000000 ∨ T = 50000000 := by
      simp only [surchargeRatesFY2024_25, List.mem_cons, List.not_mem_nil, or_false] at hri
      rcases hri with rfl | rfl | rfl | rfl | rfl <;> simp_all
    exact nested_fuel_stable fuel T r hTval

theorem surchargeF_two_eq_one (ti t : ℚ) (r : Regime) :
    calculateSurchargeF 2 ti t r = calculateSurchargeF 1 ti t r :=
  surchargeF_stable 1 ti t r

theorem calculateTaxPayable_def (g d : ℚ) (r : Regime) :
    calculateTaxPayable g d r = calculateTaxPayableInternal g d r := rfl

/-! ## Supporting facts for the marginal-relief invariant -/

theorem newSlabTax_lipschitz {x y : ℚ} (h : x ≤ y) :
    newSlabTax y ≤ newSlabTax x + (3/10) * (y - x) := by
  unfold newSlabTax; split_ifs <;> linarith

theorem oldSlabTax_lipschitz {x y : ℚ} (h : x ≤ y) :
    oldSlabTax y ≤ oldSlabTax x + (3/10) * (y - x) := by
  unfold oldSlabTax; split_ifs <;> linarith

theorem incomeAfterStdDedOf_ge50k (g : ℚ) (r : Regime) (h : 50000 ≤ g) :
    incomeAfterStdDedOf g r = g - 50000 := by
  rw [incomeAfterStdDedOf_eq, if_pos (by linarith), max_eq_right (by linarith)]

theorem taxableIncomeOf_old_ge50k (g : ℚ) (h : 50000 ≤ g) :
    taxableIncomeOf g 0 Regime.old = g - 50000 := by
  have h1 : (0:ℚ) ≤ g - 50000 := by linarith
  rw [taxableIncomeOf_old_eq, incomeAfterStdDedOf_ge50k g _ h, sub_zero, jsMax_eq, jsMax_eq,
    max_eq_right h1, max_eq_right h1]

theorem taxableIncomeOf_new_ge50k (g d : ℚ) (h : 50000 ≤ g) :
    taxableIncomeOf g d Regime.new = g - 50000 := by
  have h1 : (0:ℚ) ≤ g - 50000 := by linarith
  rw [taxableIncomeOf_new_eq, incomeAfterStdDedOf_ge50k g _ h, jsMax_eq, max_eq_right h1]

theorem appRate_low (x : ℚ) (r : Regime) (h : x ≤ 5000000) : appRate x r = 0 := by
  rw [appRate_eq, if_pos h]

theorem appRate_r10 (x : ℚ) (r : Regime) (h1 : 5000000 < x) (h2 : x ≤ 10000000) :
    appRate x r = 1/10 := by
  rw [appRate_eq, if_neg (not_le.mpr h1), if_pos h2]

theorem appRate_r15 (x : ℚ) (r : Regime) (h1 : 10000000 < x) (h2 : x ≤ 20000000) :
    appRate x r = 3/20 := by
  rw [appRate_eq, if_neg (not_le.mpr (by linarith : (5000000:ℚ) < x)),
    if_neg (not_le.mpr h1), if_pos h2]

theorem appRate_r25 (x : ℚ) (r : Regime) (h1 : 20000000 < x) (h2 : x ≤ 50000000) :
    appRate x r = 1/4 := by
  rw [appRate_eq, if_neg (not_le.mpr (by linarith : (5000000:ℚ) < x)),
    if_neg (not_le.mpr (by linarith : (10000000:ℚ) < x)), if_neg (not_le.mpr h1), if_pos h2]

theorem taxAfterRebateOf_old_top (g d : ℚ) (h : 500000 < taxableIncomeOf g d Regime.old) :
    taxAfterRebateOf g d Regime.old = oldSlabTax (taxableIncomeOf g d Regime.old) := by
  rw [taxAfterRebateOf_old_eq, if_neg (not_le.mpr h)]

theorem taxAfterRebateOf_new_top (g d : ℚ) (h : 700000 < taxableIncomeOf g d Regime.new) :
    taxAfterRebateOf g d Regime.new = newSlabTax (taxableIncomeOf g d Regime.new) := by
  rw [taxAfterRebateOf_new_eq, if_neg (not_le.mpr h)]

theorem taxAfterRebateOf_le_taxA (g d : ℚ) (r : Regime) :
    taxAfterRebateOf g d r ≤ taxA g d r := by
  have e : taxA g d r = taxAfterRebateOf g d r +
      taxAfterRebateOf g d r * appRate (surchargeBaseOf g r) r := by
    unfold taxA; ring
  have h := mul_nonneg (taxAfterRebateOf_nonneg g d r) (appRate_nonneg (surchargeBaseOf g r) r)
  linarith

theorem threshold_base_noWindow (T : ℚ) (r : Regime)
    (hT : T = 5000000 ∨ T = 10000000 ∨ T = 20000000 ∨ T = 50000000) :
    noWindow (surchargeBaseOf T r) := by
  cases r <;> rcases hT with rfl | rfl | rfl | rfl <;>
    norm_num [surchargeBaseOf, incomeAfterStdDedOf, regimeDataOf, taxDataFY2024_25, jsMax,
      noWindow, inWindow, regime_new_eq_old_iff]

theorem tbcP_threshold (T : ℚ) (r : Regime)
    (hT : T = 5000000 ∨ T = 10000000 ∨ T = 20000000 ∨ T = 50000000) :
    tbcP T 0 r = nestedTBC T r := by
  rw [tbcP_noWindow T 0 r (threshold_base_noWindow T r hT),
    nestedTBC_eq_taxA T r (threshold_base_noWindow T r hT)]

/-- Core of the marginal-relief invariant: crossing a tier threshold by
`ε ≤ T/20` increases `taxBeforeCess` by at most `ε`. -/
theorem tbcP_threshold_step (T : ℚ)
    (hT : T = 5000000 ∨ T = 10000000 ∨ T = 20000000 ∨ T = 50000000)
    (r : Regime) (ε : ℚ) (hε : 0 < ε) (hε2 : ε ≤ T * (1/20)) :
    tbcP (T + ε) 0 r ≤ tbcP T 0 r + ε := by
  have hT5 : (5000000:ℚ) ≤ T := by rcases hT with rfl | rfl | rfl | rfl <;> norm_num
  have href : tbcP T 0 r = taxA T 0 r :=
    tbcP_noWindow T 0 r (threshold_base_noWindow T r hT)
  have hnest : nestedTBC T r = taxA T 0 r :=
    nestedTBC_eq_taxA T r (threshold_base_noWindow T r hT)
  have htarle : taxAfterRebateOf T 0 r ≤ taxA T 0 r := taxAfterRebateOf_le_taxA T 0 r
  cases r with
  | old =>
    have hb : surchargeBaseOf (T + ε) Regime.old = T + ε := surchargeBaseOf_old _
    have hw : inWindow (surchargeBaseOf (T + ε) Regime.old) T := by
      rw [hb]; exact ⟨by linarith, by linarith⟩
    -- tax after rebate grows at most linearly with slope 3/10
    have hx1 : taxableIncomeOf T 0 Regime.old = T - 50000 :=
      taxableIncomeOf_old_ge50k T (by linarith)
    have hx2 : taxableIncomeOf (T + ε) 0 Regime.old = T + ε - 50000 :=
      taxableIncomeOf_old_ge50k (T + ε) (by linarith)
    have htar2 : taxAfterRebateOf (T + ε) 0 Regime.old ≤ taxAfterRebateOf T 0 Regime.old +
        (3/10) * ε := by
      rw [taxAfterRebateOf_old_top T 0 (by rw [hx1]; linarith),
        taxAfterRebateOf_old_top (T + ε) 0 (by rw [hx2]; linarith), hx1, hx2]
      have := oldSlabTax_lipschitz (show T - 50000 ≤ T + ε - 50000 by linarith)
      linarith
    rw [tbcP_window (T + ε) 0 Regime.old T hT hw, hnest, hb, href]
    split_ifs with hc
    · apply max_le
      · linarith
      · linarith
    · push_neg at hc
      linarith
  | new =>
    have hb : surchargeBaseOf (T + ε) Regime.new = T + ε - 50000 := by
      rw [surchargeBaseOf_new, incomeAfterStdDedOf_ge50k _ _ (by linarith)]
    have hx1 : taxableIncomeOf T 0 Regime.new = T - 50000 :=
      taxableIncomeOf_new_ge50k T 0 (by linarith)
    have hx2 : taxableIncomeOf (T + ε) 0 Regime.new = T + ε - 50000 :=
      taxableIncomeOf_new_ge50k (T + ε) 0 (by linarith)
    have htar2 : taxAfterRebateOf (T + ε) 0 Regime.new ≤ taxAfterRebateOf T 0 Regime.new +
        (3/10) * ε := by
      rw [taxAfterRebateOf_new_top T 0 (by rw [hx1]; linarith),
        taxAfterRebateOf_new_top (T + ε) 0 (by rw [hx2]; linarith), hx1, hx2]
      have := newSlabTax_lipschitz (show T - 50000 ≤ T + ε - 50000 by linarith)
      linarith
    rcases le_or_lt ε 50000 with hle | hgt
    · -- still at or below the threshold in post-deduction terms: no window is entered
      have hnw : noWindow (surchargeBaseOf (T + ε) Regime.new) := by
        rw [hb]
        rcases hT with rfl | rfl | rfl | rfl <;>
          refine ⟨fun hx => ?_, fun hx => ?_, fun hx => ?_, fun hx => ?_⟩ <;>
          · obtain ⟨h1, h2⟩ := hx
            linarith
      rw [tbcP_noWindow (T + ε) 0 Regime.new hnw, href]
      -- same applicable rate on both sides of the (shifted) base
      have hbase1 : surchargeBaseOf T Regime.new = T - 50000 := by
        rw [surchargeBaseOf_new, incomeAfterStdDedOf_ge50k _ _ (by linarith)]
      have hrate : appRate (surchargeBaseOf (T + ε) Regime.new) Regime.new =
          appRate (surchargeBaseOf T Regime.new) Regime.new := by
        rw [hb, hbase1]
        rcases hT with rfl | rfl | rfl | rfl
        · have e1 : appRate ((5000000:ℚ) + ε - 50000) Regime.new = 0 :=
            appRate_low _ _ (by linarith)
          have e2 : appRate ((5000000:ℚ) - 50000) Regime.new = 0 :=
            appRate_low _ _ (by linarith)
          rw [e1, e2]
        · have e1 : appRate ((10000000:ℚ) + ε - 50000) Regime.new = 1/10 :=
            appRate_r10 _ _ (by linarith) (by linarith)
          have e2 : appRate ((10000000:ℚ) - 50000) Regime.new = 1/10 :=
            appRate_r10 _ _ (by linarith) (by linarith)
          rw [e1, e2]
        · have e1 : appRate ((20000000:ℚ) + ε - 50000) Regime.new = 3/20 :=
            appRate_r15 _ _ (by linarith) (by linarith)
          have e2 : appRate ((20000000:ℚ) - 50000) Regime.new = 3/20 :=
            appRate_r15 _ _ (by linarith) (by linarith)
          rw [e1, e2]
        · have e1 : appRate ((50000000:ℚ) + ε - 50000) Regime.new = 1/4 :=
            appRate_r25 _ _ (by linarith) (by linarith)
          have e2 : appRate ((50000000:ℚ) - 50000) Regime.new = 1/4 :=
            appRate_r25 _ _ (by linarith) (by linarith)
          rw [e1, e2]
      unfold taxA
      rw [hrate]
      have hρ1 := appRate_nonneg (surchargeBaseOf T Regime.new) Regime.new
      have hρ2 := appRate_le_one (surchargeBaseOf T Regime.new) Regime.new
      have ht1 := taxAfterRebateOf_nonneg T 0 Regime.new
      have hmul : taxAfterRebateOf (T + ε) 0 Regime.new *
          (1 + appRate (surchargeBaseOf T Regime.new) Regime.new) ≤
          (taxAfterRebateOf T 0 Regime.new + (3/10) * ε) *
          (1 + appRate (surchargeBaseOf T Regime.new) Regime.new) :=
        mul_le_mul_of_nonneg_right htar2 (by linarith)
      nlinarith [hmul, hε.le, hρ1, hρ2]
    · -- the shifted base enters the window of `T`
      have hw : inWindow (surchargeBaseOf (T + ε) Regime.new) T := by
        rw [hb]
        constructor
        · linarith
        · linarith
      rw [tbcP_window (T + ε) 0 Regime.new T hT hw, hnest, hb, href]
      split_ifs with hc
      · apply max_le
        · linarith
        · linarith
      · push_neg at hc
        linarith

/-! ## Auxiliary rounding facts -/

theorem jsRound_nonneg {x : ℚ} (h : 0 ≤ x) : 0 ≤ jsRound x := by
  rw [jsRound_eq]
  have h2 : (0:ℤ) ≤ ⌊x + 1/2⌋ := Int.le_floor.mpr (by push_cast; linarith)
  exact_mod_cast h2

/-! ## The claims -/

/-- C1: for grossIncome 1,200,000, deductions 0, New regime, the engine
returns taxableIncome 1,150,000, taxBeforeRebate 82,500, rebate 0,
surcharge 0, cess 3,300 and totalTax 85,800. -/
theorem claim_C1 :
    (calculateTaxPayable 1200000 0 Regime.new).taxableIncome = 1150000 ∧
    (calculateTaxPayable 1200000 0 Regime.new).taxBeforeRebate = 82500 ∧
    (calculateTaxPayable 1200000 0 Regime.new).rebate = 0 ∧
    (calculateTaxPayable 1200000 0 Regime.new).surcharge = 0 ∧
    (calculateTaxPayable 1200000 0 Regime.new).cess = 3300 ∧
    (calculateTaxPayable 1200000 0 Regime.new).totalTax = 85800 := by
  have h : calculateTaxPayable 1200000 0 Regime.new =
      ⟨1150000, 82500, 0, 82500, 0, 3300, 85800, 82500⟩ := by
    norm_num [calculateTaxPayable, calculateTaxPayableInternal, calcInternalGeneric,
      calculateSurchargeF_two, calculateSurchargeF_one, calculateSurchargeF_zero,
      taxableIncomeOf, taxBeforeRebateOf, rebateOf, taxAfterRebateOf, surchargeBaseOf,
      incomeAfterStdDedOf, regimeDataOf, taxDataFY2024_25, surchargeRatesFY2024_25,
      CESS_RATE, calculateSlabTax, slabTaxAux, appRate, rateLoop, reliefLoop, jsMax, jsMin,
      jsRound_eq, regime_new_eq_old_iff, regime_old_eq_new_iff, TaxResult.mk.injEq]
  rw [h]
  exact ⟨rfl, rfl, rfl, rfl, rfl, rfl⟩

/-- C2: marginal-relief invariant.  For every finite non-zero surcharge tier
threshold `T`, every regime, and every increment `0 < ε ≤ T/20` (the relief
window width, covering the claim's small increments such as `ε = 100`), the
total tax at gross income `T + ε` exceeds the total tax at `T` by at most
`ε` plus the cess on `ε` plus one rounding unit. -/
theorem claim_C2 (T : ℚ)
    (hT : T = 5000000 ∨ T = 10000000 ∨ T = 20000000 ∨ T = 50000000)
    (r : Regime) (ε : ℚ) (hε : 0 < ε) (hε2 : ε ≤ T * (1/20)) :
    (calculateTaxPayable (T + ε) 0 r).totalTax ≤
      (calculateTaxPayable T 0 r).totalTax + ε + CESS_RATE * ε + 1 := by
  have hstep := tbcP_threshold_step T hT r ε hε hε2
  rw [calculateTaxPayable_def, calculateTaxPayable_def, totalTaxP_eq, totalTaxP_eq]
  have h1 := jsRound_le (tbcP (T + ε) 0 r * (26/25))
  have h2 := jsRound_ge (tbcP T 0 r * (26/25))
  rw [CESS_RATE]
  linarith

/-- C2 witness: the invariant applied at `T = 10,000,000`, Old regime,
`ε = 100`. -/
theorem claim_C2_witness :
    (0:ℚ) < 100 ∧ (100:ℚ) ≤ 10000000 * (1/20) ∧
    (calculateTaxPayable (10000000 + 100) 0 Regime.old).totalTax ≤
      (calculateTaxPayable 10000000 0 Regime.old).totalTax + 100 + CESS_RATE * 100 + 1 :=
  ⟨by norm_num, by norm_num,
    claim_C2 10000000 (by norm_num) Regime.old 100 (by norm_num) (by norm_num)⟩

/-- C3 counterexample: the value the marginal-relief phase uses at the
threshold `T = 10,000,000` in the Old regime is `taxBeforeCess = 3,077,250`,
which is not the tax-after-rebate at `T` (`2,797,500`): the nested call does
recompute and include a surcharge. -/
theorem claim_C3_counterexample :
    nestedTBC 10000000 Regime.old = 3077250 ∧
    taxAfterRebateOf 10000000 0 Regime.old = 2797500 ∧
    (3077250 : ℚ) ≠ 2797500 := by
  refine ⟨?_, ?_, by norm_num⟩ <;>
    norm_num [nestedTBC, calculateTaxPayable, calculateTaxPayableInternal, calcInternalGeneric,
      calculateSurchargeF_two, calculateSurchargeF_one, calculateSurchargeF_zero,
      taxableIncomeOf, taxBeforeRebateOf, rebateOf, taxAfterRebateOf, surchargeBaseOf,
      incomeAfterStdDedOf, regimeDataOf, taxDataFY2024_25, surchargeRatesFY2024_25,
      CESS_RATE, calculateSlabTax, slabTaxAux, appRate, rateLoop, reliefLoop, jsMax, jsMin,
      jsRound_eq, regime_new_eq_old_iff, regime_old_eq_new_iff, TaxResult.mk.injEq]

/-- C3 amended: the value used for the relief comparison at a threshold `T`
is the tax-after-rebate at gross income `T` (deductions 0) plus one
relief-free surcharge application; the nested computation never enters a
relief window, so the surcharge recursion stops there
(`calculateSurchargeF 0` contains no relief loop and no nested call). -/
theorem claim_C3 (T : ℚ)
    (hT : T = 5000000 ∨ T = 10000000 ∨ T = 20000000 ∨ T = 50000000) (r : Regime) :
    nestedTBC T r = taxAfterRebateOf T 0 r +
      calculateSurchargeF 0 (surchargeBaseOf T r) (taxAfterRebateOf T 0 r) r := by
  show taxAfterRebateOf T 0 r +
      calculateSurchargeF 1 (surchargeBaseOf T r) (taxAfterRebateOf T 0 r) r = _
  congr 1
  exact surchargeF_noWindow 1 _ _ r (threshold_base_noWindow T r hT)

/-- C3 witness: the amended statement at `T = 10,000,000`, Old regime. -/
theorem claim_C3_witness :
    ((10000000:ℚ) = 5000000 ∨ (10000000:ℚ) = 10000000 ∨ (10000000:ℚ) = 20000000 ∨
      (10000000:ℚ) = 50000000) ∧
    nestedTBC 10000000 Regime.old = taxAfterRebateOf 10000000 0 Regime.old +
      calculateSurchargeF 0 (surchargeBaseOf 10000000 Regime.old)
        (taxAfterRebateOf 10000000 0 Regime.old) Regime.old :=
  ⟨by norm_num, claim_C3 10000000 (by norm_num) Regime.old⟩

/-- C4 counterexample: totalTax is NOT monotone in gross income for every
regime and deduction value.  In the New regime with deductions 0, raising
gross income from 10,050,000 to 10,050,100 lowers the total tax (the relief
window is tested against post-standard-deduction income but the threshold tax
is computed at gross `T`, so relief over-corrects); in the Old regime a
negative deduction value also breaks monotonicity. -/
theorem claim_C4_counterexample :
    (calculateTaxPayable 10050100 0 Regime.new).totalTax <
      (calculateTaxPayable 10050000 0 Regime.new).totalTax ∧
    (calculateTaxPayable 10000100 (-10000000) Regime.old).totalTax <
      (calculateTaxPayable 10000000 (-10000000) Regime.old).totalTax := by
  constructor
  · have h1 : (calculateTaxPayable 10050100 0 Regime.new).totalTax = 3071744 := by
      norm_num [calculateTaxPayable, calculateTaxPayableInternal, calcInternalGeneric,
      calculateSurchargeF_two, calculateSurchargeF_one, calculateSurchargeF_zero,
      taxableIncomeOf, taxBeforeRebateOf, rebateOf, taxAfterRebateOf, surchargeBaseOf,
      incomeAfterStdDedOf, regimeDataOf, taxDataFY2024_25, surchargeRatesFY2024_25,
      CESS_RATE, calculateSlabTax, slabTaxAux, appRate, rateLoop, reliefLoop, jsMax, jsMin,
      jsRound_eq, regime_new_eq_old_iff, regime_old_eq_new_iff, TaxResult.mk.injEq]
    have h2 : (calculateTaxPayable 10050000 0 Regime.new).totalTax = 3088800 := by
      norm_num [calculateTaxPayable, calculateTaxPayableInternal, calcInternalGeneric,
      calculateSurchargeF_two, calculateSurchargeF_one, calculateSurchargeF_zero,
      taxableIncomeOf, taxBeforeRebateOf, rebateOf, taxAfterRebateOf, surchargeBaseOf,
      incomeAfterStdDedOf, regimeDataOf, taxDataFY2024_25, surchargeRatesFY2024_25,
      CESS_RATE, calculateSlabTax, slabTaxAux, appRate, rateLoop, reliefLoop, jsMax, jsMin,
      jsRound_eq, regime_new_eq_old_iff, regime_old_eq_new_iff, TaxResult.mk.injEq]
    rw [h1, h2]
    norm_num
  · have h1 : (calculateTaxPayable 10000100 (-10000000) Regime.old).totalTax = 6029431 := by
      norm_num [calculateTaxPayable, calculateTaxPayableInternal, calcInternalGeneric,
      calculateSurchargeF_two, calculateSurchargeF_one, calculateSurchargeF_zero,
      taxableIncomeOf, taxBeforeRebateOf, rebateOf, taxAfterRebateOf, surchargeBaseOf,
      incomeAfterStdDedOf, regimeDataOf, taxDataFY2024_25, surchargeRatesFY2024_25,
      CESS_RATE, calculateSlabTax, slabTaxAux, appRate, rateLoop, reliefLoop, jsMax, jsMin,
      jsRound_eq, regime_new_eq_old_iff, regime_old_eq_new_iff, TaxResult.mk.injEq]
    have h2 : (calculateTaxPayable 10000000 (-10000000) Regime.old).totalTax = 6632340 := by
      norm_num [calculateTaxPayable, calculateTaxPayableInternal, calcInternalGeneric,
      calculateSurchargeF_two, calculateSurchargeF_one, calculateSurchargeF_zero,
      taxableIncomeOf, taxBeforeRebateOf, rebateOf, taxAfterRebateOf, surchargeBaseOf,
      incomeAfterStdDedOf, regimeDataOf, taxDataFY2024_25, surchargeRatesFY2024_25,
      CESS_RATE, calculateSlabTax, slabTaxAux, appRate, rateLoop, reliefLoop, jsMax, jsMin,
      jsRound_eq, regime_new_eq_old_iff, regime_old_eq_new_iff, TaxResult.mk.injEq]
    rw [h1, h2]
    norm_num

/-- C4 amended: in the Old regime with non-negative deductions, totalTax is
non-decreasing in gross income. -/
theorem claim_C4 (d g1 g2 : ℚ) (hd : 0 ≤ d) (h : g1 ≤ g2) :
    (calculateTaxPayable g1 d Regime.old).totalTax ≤
      (calculateTaxPayable g2 d Regime.old).totalTax := by
  rw [calculateTaxPayable_def, calculateTaxPayable_def, totalTaxP_eq, totalTaxP_eq]
  exact jsRound_mono (mul_le_mul_of_nonneg_right (tbcP_old_mono hd h) (by norm_num))

/-- C4 witness: the amended monotonicity at `d = 0`, incomes 100 and 200. -/
theorem claim_C4_witness :
    (0:ℚ) ≤ 0 ∧ (100:ℚ) ≤ 200 ∧
    (calculateTaxPayable 100 0 Regime.old).totalTax ≤
      (calculateTaxPayable 200 0 Regime.old).totalTax :=
  ⟨le_refl 0, by norm_num, claim_C4 0 100 200 (le_refl 0) (by norm_num)⟩

/-- C5: the rebate rule.  For every input, the returned rebate is
`min(taxBeforeRebate, rebateAmount)` when taxable income is at most the
regime's rebate threshold and `0` otherwise; concretely, gross income
600,000 in the New regime gives taxable 550,000, rebate 12,500,
taxAfterRebate 0 and totalTax 0. -/
theorem claim_C5 :
    (∀ (g d : ℚ) (r : Regime),
      (calculateTaxPayable g d r).rebate =
        if (calculateTaxPayable g d r).taxableIncome ≤
            ((regimeDataOf r).rebateLimit).getD 0
        then min ((calculateTaxPayable g d r).taxBeforeRebate)
          (((regimeDataOf r).rebateAmount).getD 0)
        else 0) ∧
    (calculateTaxPayable 600000 0 Regime.new).taxableIncome = 550000 ∧
    (calculateTaxPayable 600000 0 Regime.new).rebate = 12500 ∧
    (calculateTaxPayable 600000 0 Regime.new).taxAfterRebate = 0 ∧
    (calculateTaxPayable 600000 0 Regime.new).totalTax = 0 := by
  constructor
  · intro g d r
    show rebateOf g d r =
      if taxableIncomeOf g d r ≤ ((regimeDataOf r).rebateLimit).getD 0
      then min (taxBeforeRebateOf g d r) (((regimeDataOf r).rebateAmount).getD 0)
      else 0
    cases r <;>
      · simp only [rebateOf, regimeDataOf, taxDataFY2024_25, Option.getD_some, jsMin_eq]
        norm_num
  · have h : calculateTaxPayable 600000 0 Regime.new =
        ⟨550000, 12500, 12500, 0, 0, 0, 0, 0⟩ := by
      norm_num [calculateTaxPayable, calculateTaxPayableInternal, calcInternalGeneric,
      calculateSurchargeF_two, calculateSurchargeF_one, calculateSurchargeF_zero,
      taxableIncomeOf, taxBeforeRebateOf, rebateOf, taxAfterRebateOf, surchargeBaseOf,
      incomeAfterStdDedOf, regimeDataOf, taxDataFY2024_25, surchargeRatesFY2024_25,
      CESS_RATE, calculateSlabTax, slabTaxAux, appRate, rateLoop, reliefLoop, jsMax, jsMin,
      jsRound_eq, regime_new_eq_old_iff, regime_old_eq_new_iff, TaxResult.mk.injEq]
    rw [h]
    exact ⟨rfl, rfl, rfl, rfl⟩

/-- C6 counterexample: with gross income 0 (which is `≤ 0`) and a negative
deduction value, the Old regime produces a positive taxable income, so the
claim's clamping statement fails for arbitrary `totalDeductions`. -/
theorem claim_C6_counterexample :
    (calculateTaxPayable 0 (-100) Regime.old).taxableIncome = 100 ∧ (100:ℚ) ≠ 0 := by
  refine ⟨?_, by norm_num⟩
  norm_num [calculateTaxPayable, calculateTaxPayableInternal, calcInternalGeneric,
      calculateSurchargeF_two, calculateSurchargeF_one, calculateSurchargeF_zero,
      taxableIncomeOf, taxBeforeRebateOf, rebateOf, taxAfterRebateOf, surchargeBaseOf,
      incomeAfterStdDedOf, regimeDataOf, taxDataFY2024_25, surchargeRatesFY2024_25,
      CESS_RATE, calculateSlabTax, slabTaxAux, appRate, rateLoop, reliefLoop, jsMax, jsMin,
      jsRound_eq, regime_new_eq_old_iff, regime_old_eq_new_iff, TaxResult.mk.injEq]

/-- C6 amended: `calculateTaxPayable(0, 0, r)` returns the all-zero result
for both regimes, and for every gross income `≤ 0` and every NON-NEGATIVE
deduction value the clamping yields taxableIncome 0 and totalTax 0. -/
theorem claim_C6 :
    (calculateTaxPayable 0 0 Regime.new = ⟨0, 0, 0, 0, 0, 0, 0, 0⟩ ∧
      calculateTaxPayable 0 0 Regime.old = ⟨0, 0, 0, 0, 0, 0, 0, 0⟩) ∧
    ∀ (g d : ℚ) (r : Regime), g ≤ 0 → 0 ≤ d →
      (calculateTaxPayable g d r).taxableIncome = 0 ∧
      (calculateTaxPayable g d r).totalTax = 0 := by
  constructor
  · constructor <;> norm_num [calculateTaxPayable, calculateTaxPayableInternal, calcInternalGeneric,
      calculateSurchargeF_two, calculateSurchargeF_one, calculateSurchargeF_zero,
      taxableIncomeOf, taxBeforeRebateOf, rebateOf, taxAfterRebateOf, surchargeBaseOf,
      incomeAfterStdDedOf, regimeDataOf, taxDataFY2024_25, surchargeRatesFY2024_25,
      CESS_RATE, calculateSlabTax, slabTaxAux, appRate, rateLoop, reliefLoop, jsMax, jsMin,
      jsRound_eq, regime_new_eq_old_iff, regime_old_eq_new_iff, TaxResult.mk.injEq]
  · intro g d r hg hd
    have hti : taxableIncomeOf g d r = 0 := by
      cases r
      · rw [taxableIncomeOf_new_eq, incomeAfterStdDedOf_eq, if_neg (not_lt.mpr hg),
          jsMax_eq, max_eq_left hg]
      · have h1 : g - d ≤ 0 := by linarith
        rw [taxableIncomeOf_old_eq, incomeAfterStdDedOf_eq, if_neg (not_lt.mpr hg),
          jsMax_eq, jsMax_eq, max_eq_left h1, max_self]
    have htbr : taxBeforeRebateOf g d r = 0 := by
      cases r
      · rw [taxBeforeRebateOf, calculateSlabTax_new, hti]
        norm_num [newSlabTax]
      · rw [taxBeforeRebateOf, calculateSlabTax_old, hti]
        norm_num [oldSlabTax]
    have htar : taxAfterRebateOf g d r = 0 := by
      have hr := rebateOf_nonneg g d r
      have h1 : taxAfterRebateOf g d r ≤ 0 := by
        rw [taxAfterRebateOf, jsMax_eq]
        exact max_le (le_refl 0) (by linarith)
      exact le_antisymm h1 (taxAfterRebateOf_nonneg g d r)
    have htbc : tbcP g d r = 0 := by
      rw [tbcP_eq, htar, calculateSurchargeF_two, if_pos (le_refl (0:ℚ))]
      norm_num
    refine ⟨hti, ?_⟩
    rw [calculateTaxPayable_def, totalTaxP_eq, htbc]
    norm_num [jsRound_eq]

/-- C6 witness: the amended claim applied at `g = -5`, `d = 3`, Old regime. -/
theorem claim_C6_witness :
    (-5:ℚ) ≤ 0 ∧ (0:ℚ) ≤ 3 ∧
    ((calculateTaxPayable (-5) 3 Regime.old).taxableIncome = 0 ∧
      (calculateTaxPayable (-5) 3 Regime.old).totalTax = 0) :=
  ⟨by norm_num, by norm_num, claim_C6.2 (-5) 3 Regime.old (by norm_num) (by norm_num)⟩

/-- C7: New-regime deduction noninterference — the returned record is
identical, in every field, for any two deduction values. -/
theorem claim_C7 (g d1 d2 : ℚ) :
    calculateTaxPayable g d1 Regime.new = calculateTaxPayable g d2 Regime.new := by
  have hti : ∀ d, taxableIncomeOf g d Regime.new = taxableIncomeOf g 0 Regime.new :=
    fun d => by rw [taxableIncomeOf_new_eq, taxableIncomeOf_new_eq]
  have htbr : ∀ d, taxBeforeRebateOf g d Regime.new = taxBeforeRebateOf g 0 Regime.new :=
    fun d => by simp only [taxBeforeRebateOf]; rw [hti]
  have hreb : ∀ d, rebateOf g d Regime.new = rebateOf g 0 Regime.new := fun d => by
    simp only [rebateOf, regimeDataOf, taxDataFY2024_25]
    rw [hti, htbr]
  have htar : ∀ d, taxAfterRebateOf g d Regime.new = taxAfterRebateOf g 0 Regime.new :=
    fun d => by simp only [taxAfterRebateOf]; rw [htbr, hreb]
  show calcInternalGeneric (calculateSurchargeF 2) g d1 Regime.new =
    calcInternalGeneric (calculateSurchargeF 2) g d2 Regime.new
  simp only [calcInternalGeneric]
  rw [hti d1, hti d2, htbr d1, htbr d2, hreb d1, hreb d2, htar d1, htar d2]

/-- C8: result-shape invariant — all eight returned fields are non-negative,
totalTax is an integer, and totalTax is within half a unit of the exact
`taxBeforeCess + cess` (rounding to the nearest unit). -/
theorem claim_C8 (g d : ℚ) (r : Regime) :
    0 ≤ (calculateTaxPayable g d r).taxableIncome ∧
    0 ≤ (calculateTaxPayable g d r).taxBeforeRebate ∧
    0 ≤ (calculateTaxPayable g d r).rebate ∧
    0 ≤ (calculateTaxPayable g d r).taxAfterRebate ∧
    0 ≤ (calculateTaxPayable g d r).surcharge ∧
    0 ≤ (calculateTaxPayable g d r).cess ∧
    0 ≤ (calculateTaxPayable g d r).taxBeforeCess ∧
    0 ≤ (calculateTaxPayable g d r).totalTax ∧
    (∃ k : ℤ, (calculateTaxPayable g d r).totalTax = (k : ℚ)) ∧
    |(calculateTaxPayable g d r).totalTax -
      ((calculateTaxPayable g d r).taxBeforeCess + (calculateTaxPayable g d r).cess)| ≤
      1/2 := by
  refine ⟨taxableIncomeOf_nonneg g d r, taxBeforeRebateOf_nonneg g d r,
    rebateOf_nonneg g d r, taxAfterRebateOf_nonneg g d r, surchargeF_nonneg 2 _ _ r,
    mul_nonneg (tbcP_nonneg g d r) (by norm_num [CESS_RATE]), tbcP_nonneg g d r, ?_, ?_, ?_⟩
  · rw [calculateTaxPayable_def, totalTaxP_eq]
    exact jsRound_nonneg (mul_nonneg (tbcP_nonneg g d r) (by norm_num))
  · rw [calculateTaxPayable_def, totalTaxP_eq, jsRound_eq]
    exact ⟨⌊tbcP g d r * (26/25) + 1/2⌋, rfl⟩
  · have e : (calculateTaxPayableInternal g d r).taxBeforeCess +
        (calculateTaxPayableInternal g d r).cess = tbcP g d r * (26/25) := by
      show tbcP g d r + tbcP g d r * CESS_RATE = _
      rw [CESS_RATE]
      ring
    rw [calculateTaxPayable_def, totalTaxP_eq, e]
    have h1 := jsRound_le (tbcP g d r * (26/25))
    have h2 := jsRound_ge (tbcP g d r * (26/25))
    rw [abs_le]
    constructor <;> linarith

/-- C9: the mutual recursion between the surcharge computation and the
internal tax computation stabilizes at depth two: every fuel bound `≥ 1` for
the marginal-relief recomputation yields exactly the surcharge function and
tax results the program computes, because a nested threshold computation
never falls inside a relief window.  In particular every call terminates
with at most one bounded extra tax computation. -/
theorem claim_C9 :
    (∀ (fuel : Nat) (ti t : ℚ) (r : Regime),
      calculateSurchargeF (fuel + 1) ti t r = calculateSurchargeF 1 ti t r) ∧
    (∀ (fuel : Nat) (g d : ℚ) (r : Regime),
      calcInternalGeneric (calculateSurchargeF (fuel + 1)) g d r =
        calculateTaxPayableInternal g d r) := by
  refine ⟨surchargeF_stable, fun fuel g d r => ?_⟩
  have hS : calculateSurchargeF (fuel + 1) (surchargeBaseOf g r) (taxAfterRebateOf g d r) r =
      calculateSurchargeF 2 (surchargeBaseOf g r) (taxAfterRebateOf g d r) r :=
    (surchargeF_stable fuel _ _ _).trans (surchargeF_two_eq_one _ _ _).symm
  show calcInternalGeneric _ g d r = calcInternalGeneric (calculateSurchargeF 2) g d r
  simp only [calcInternalGeneric]
  rw [hS]

/-- C10: Old-regime deduction monotonicity — for fixed gross income, totalTax
is non-increasing in the deduction amount. -/
theorem claim_C10 (g d1 d2 : ℚ) (hd : d1 ≤ d2) :
    (calculateTaxPayable g d2 Regime.old).totalTax ≤
      (calculateTaxPayable g d1 Regime.old).totalTax := by
  rw [calculateTaxPayable_def, calculateTaxPayable_def, totalTaxP_eq, totalTaxP_eq]
  exact jsRound_mono (mul_le_mul_of_nonneg_right (tbcP_old_anti_d hd) (by norm_num))

/-- C10 witness: deductions 0 versus 50,000 at gross income 1,000,000. -/
theorem claim_C10_witness :
    (0:ℚ) ≤ 50000 ∧
    (calculateTaxPayable 1000000 50000 Regime.old).totalTax ≤
      (calculateTaxPayable 1000000 0 Regime.old).totalTax :=
  ⟨by norm_num, claim_C10 1000000 0 50000 (by norm_num)⟩


end TaxSage
